import Mathlib

/-!
Verification of the TVChannelSearcher search-and-validate pipeline.

Shallow embedding of the Python sources under `Parser/`:
`searcher_interface.py` (channel record, search config, validation engine,
search orchestration, searcher factory), `tonkiang_searcher.py`
(`_send_search_request` transport-result handling), and
`modular_batch_processor.py` (channel-file parsing, domain-frequency
ranking, result formatting, batch processing).

Conventions used throughout:
- Python machine-level effects (wall-clock timeouts, thread scheduling,
  logging, file I/O) are abstracted: completion orders of thread pools are
  explicit list parameters, file contents are explicit line lists.
- Python `None`-returning fallible functions become `Option`; functions
  that raise become `Except`.
- Python's stdlib pieces that the sources call (`str.strip`, string
  comparison, `urllib.parse.urlparse().hostname`, `sorted`) are modelled
  as executable Lean functions; `sorted` is modelled by a stable insertion
  sort, extensionally equal to any stable sort by the same key.
-/

deriving instance DecidableEq for Except

/-- Python `str.strip()`: drop leading and trailing whitespace. -/
def pyStrip (s : String) : String :=
  ⟨(((s.data.dropWhile Char.isWhitespace).reverse).dropWhile Char.isWhitespace).reverse⟩

/-- Python string `<=`: lexicographic comparison of code points. -/
def charListLe : List Char → List Char → Bool
  | [], _ => true
  | _ :: _, [] => false
  | a :: as, b :: bs => if a = b then charListLe as bs else decide (a < b)

/-- String form of `charListLe`. -/
def pyStrLe (s t : String) : Bool := charListLe s.data t.data

/-- `IPTVChannel` dataclass of `searcher_interface.py` (lines 20-27):
name, url, resolution (default "未知"), quality (default "标清"),
source (default "未知"). -/
structure IPTVChannel where
  name : String
  url : String
  resolution : String
  quality : String
  source : String
deriving DecidableEq, Repr

/-- Default of the `resolution` field in the `IPTVChannel` dataclass. -/
def defaultResolution : String := "未知"

/-- Default of the `quality` field in the `IPTVChannel` dataclass. -/
def defaultQuality : String := "标清"

/-- Default of the `source` field in the `IPTVChannel` dataclass. -/
def defaultSource : String := "未知"

/-- Value of a maximal digit run read as a decimal numeral. -/
def digitsToNat (cs : List Char) : Nat :=
  cs.foldl (fun n c => n * 10 + (c.toNat - 48)) 0

/-- `re.search(r'(\d+)', s)` followed by `int(...)`: the first maximal run
of digits in `s`, as a number; `none` when `s` has no digit. -/
def firstNumber (s : String) : Option Nat :=
  let rest := s.data.dropWhile (fun c => !c.isDigit)
  match rest with
  | [] => none
  | _ => some (digitsToNat (rest.takeWhile Char.isDigit))

/-- `IPTVChannel.__post_init__` (`searcher_interface.py` lines 29-46):
reject empty name or url; when the resolution text is present (non-empty
and not the "未知" default) and contains a number, overwrite `quality`
from the FIRST number found: ≥1080 → "高清", ≥720 → "标清", else "普清". -/
def post_init (c : IPTVChannel) : Except String IPTVChannel :=
  if c.name = "" ∨ c.url = "" then
    .error "频道名称和链接不能为空"
  else if c.resolution ≠ "" ∧ c.resolution ≠ "未知" then
    match firstNumber c.resolution with
    | some height =>
      .ok { c with quality :=
        if 1080 ≤ height then "高清"
        else if 720 ≤ height then "标清"
        else "普清" }
    | none => .ok c
  else
    .ok c

/-- Constructing an `IPTVChannel(name, url, resolution, quality, source)`:
the dataclass runs `__post_init__` after field assignment. -/
def mkIPTVChannel (name url resolution quality source : String) :
    Except String IPTVChannel :=
  post_init ⟨name, url, resolution, quality, source⟩

/-- `SearchConfig` dataclass (`searcher_interface.py` lines 49-59). -/
structure SearchConfig where
  max_results : Nat
  timeout : Nat
  min_resolution : Nat
  enable_validation : Bool
  enable_cache : Bool
  max_pages : Nat
  concurrent_workers : Nat
  min_valid_links : Nat
deriving DecidableEq, Repr

/-- The dataclass defaults of `SearchConfig`. -/
def defaultSearchConfig : SearchConfig :=
  { max_results := 10, timeout := 20, min_resolution := 0,
    enable_validation := true, enable_cache := true, max_pages := 2,
    concurrent_workers := 16, min_valid_links := 3 }

/-- The worker ceiling of `_validate_links_concurrent`
(`searcher_interface.py` line 147): `min(concurrent_workers, len(channels), 16)`. -/
def max_workers (cfg : SearchConfig) (candidate_count : Nat) : Nat :=
  min (min cfg.concurrent_workers candidate_count) 16

/-- The result-collection loop of `_validate_links_concurrent`
(`searcher_interface.py` lines 165-198), walking completed probes in
completion order: a probe result that raised (`Except.error`) or returned
`false` is skipped; a valid channel is appended; once the accumulated
count reaches `target_count` the loop breaks and later completions are
discarded.  (The wall-clock timeout branches at lines 165, 173 and 190-194
are real-time behaviour and are not part of this deterministic model.) -/
def collect_valid (validate : IPTVChannel → Except Unit Bool) (target : Nat)
    (acc : List IPTVChannel) : List IPTVChannel → List IPTVChannel
  | [] => acc
  | c :: rest =>
    match validate c with
    | .ok true =>
      let acc2 := acc ++ [c]
      if target ≤ acc2.length then acc2
      else collect_valid validate target acc2 rest
    | _ => collect_valid validate target acc rest

/-- `_validate_links_concurrent` (`searcher_interface.py` lines 130-224).
`order` is the completion order of the thread pool (a permutation of
`channels` chosen by the scheduler).  The second component counts the
invocations of `_validate_link`: every channel is submitted to the
executor (lines 155-158) and no future is ever cancelled — the final
`executor.shutdown(wait=True)` (line 206) runs every submitted probe —
so with validation enabled every candidate is probed exactly once. -/
def validate_links_concurrent (cfg : SearchConfig)
    (validate : IPTVChannel → Except Unit Bool)
    (channels order : List IPTVChannel) (remaining_needed : Option Nat) :
    List IPTVChannel × Nat :=
  let target_count := remaining_needed.getD cfg.min_valid_links
  if cfg.enable_validation = false ∨ channels.isEmpty then
    (channels.take target_count, 0)
  else
    (collect_valid validate target_count [] order, channels.length)

/-- The abstract-method surface a concrete searcher supplies to
`BaseIPTVSearcher` plus the scheduler choice: `send` is
`_send_search_request` (an `Except.error` models a raised exception, the
`Option` payload models the Python return value which may be `None`),
`parse` is `_parse_search_results`, `validate` is `_validate_link`
(`Except.error` models a raised exception), and `schedule` gives the
completion order the validation thread pool happens to produce. -/
structure SearcherOps where
  send : String → Nat → Except Unit (Option String)
  parse : Option String → String → List IPTVChannel
  validate : IPTVChannel → Except Unit Bool
  schedule : List IPTVChannel → List IPTVChannel

/-- The paging loop of `search_channels` (`searcher_interface.py` lines
243-286).  `fuel` bounds the recursion; called with `fuel = max_pages`
it is never exhausted before the `page ≤ max_pages` guard stops the loop. -/
def search_pages (cfg : SearchConfig) (ops : SearcherOps) (keyword : String) :
    Nat → Nat → List IPTVChannel → List IPTVChannel
  | 0, _, acc => acc
  | fuel + 1, page, acc =>
    if cfg.max_results ≤ acc.length ∨ cfg.max_pages < page then acc
    else
      match ops.send keyword page with
      | .error _ => acc
      | .ok content =>
        let page_channels := ops.parse content keyword
        if page_channels.isEmpty then acc
        else if cfg.enable_validation then
          let remaining_needed := cfg.min_valid_links - acc.length
          if 0 < remaining_needed then
            let valid := (validate_links_concurrent cfg ops.validate
              page_channels (ops.schedule page_channels) (some remaining_needed)).1
            let acc2 := acc ++ valid
            if cfg.min_valid_links ≤ acc2.length then acc2
            else search_pages cfg ops keyword fuel (page + 1) acc2
          else acc
        else search_pages cfg ops keyword fuel (page + 1) (acc ++ page_channels)

/-- The URL-deduplication pass of `search_channels`
(`searcher_interface.py` lines 288-294): keep a channel only when its URL
was not seen before; `seen` is the set of already-seen URLs. -/
def dedup_go (seen : List String) : List IPTVChannel → List IPTVChannel
  | [] => []
  | c :: rest =>
    if seen.contains c.url then dedup_go seen rest
    else c :: dedup_go (c.url :: seen) rest

/-- Deduplication by URL starting from an empty seen-set. -/
def dedup_by_url (channels : List IPTVChannel) : List IPTVChannel :=
  dedup_go [] channels

/-- The per-keyword cache `_search_cache`: a Python dict modelled as an
insertion-ordered association list; `none` models `_search_cache = None`
(caching disabled at construction, `searcher_interface.py` line 79). -/
abbrev SearchCache := List (String × List IPTVChannel)

/-- Python `d[k] = v` on a dict: replace the value of an existing key,
else append the new pair. -/
def dict_insert (k : String) (v : List IPTVChannel) (m : SearchCache) : SearchCache :=
  if (m.lookup k).isSome then
    m.map (fun p => if p.1 = k then (k, v) else p)
  else m ++ [(k, v)]

/-- The cache created by `BaseIPTVSearcher.__init__`
(`searcher_interface.py` line 79): an empty dict when caching is enabled,
`None` otherwise. -/
def init_cache (cfg : SearchConfig) : Option SearchCache :=
  if cfg.enable_cache then some [] else none

/-- `BaseIPTVSearcher.search_channels` (`searcher_interface.py` lines
226-311), returning the result list and the cache state afterwards.
Mirrors the Python truthiness tests literally: the cache-hit branch
(line 237) fires only when `self._search_cache` is truthy — a non-`None`,
NON-EMPTY dict — and the keyword is present; the cache store (line 308)
likewise fires only when the dict is non-`None` and non-empty. -/
def search_channels (cfg : SearchConfig) (ops : SearcherOps)
    (cache : Option SearchCache) (keyword : String) :
    List IPTVChannel × Option SearchCache :=
  match cache with
  | some m =>
    if m ≠ [] ∧ (m.lookup keyword).isSome then
      (((m.lookup keyword).getD []).take cfg.max_results, some m)
    else
      let final := (dedup_by_url (search_pages cfg ops keyword cfg.max_pages 1 [])).take
        cfg.max_results
      (final, some (if m = [] then m else dict_insert keyword final m))
  | none =>
    let final := (dedup_by_url (search_pages cfg ops keyword cfg.max_pages 1 [])).take
      cfg.max_results
    (final, none)

/-- One HTTP attempt as seen by `tonkiang_searcher.py`: a response with a
status code and a body, or a raised transport exception. -/
inductive HttpAttempt where
  | resp (status : Nat) (body : String)
  | exn
deriving DecidableEq, Repr

/-- The 503 retry loop of `TonkiangSearcher._send_search_request`
(`tonkiang_searcher.py` lines 237-270): up to three retries; a 200 returns
its text, another 503 or a raised exception moves to the next retry, any
other status breaks out; exhaustion and break both fall through to
`return None`.  The argument lists the outcomes of the successive retry
posts (three in the source). -/
def retry_503_loop : List HttpAttempt → Option String
  | [] => none
  | attempt :: rest =>
    match attempt with
    | .exn => retry_503_loop rest
    | .resp status body =>
      if status = 200 then some body
      else if status ≠ 503 then none
      else retry_503_loop rest

/-- `TonkiangSearcher._send_search_request` (`tonkiang_searcher.py` lines
119-279) as a function of the wire outcomes: the homepage warm-up GET
(its status only affects logging and delays, but a raised exception
reaches the enclosing handler which returns `None`), the search POST, and
the outcomes of the retry POSTs used when the search POST returns 503.
A 200 returns the body, a 503 enters the retry loop, any other status
returns the EMPTY STRING (line 273), and a raised exception returns
`None` (line 279). -/
def send_search_request (homepage search : HttpAttempt)
    (retries : List HttpAttempt) : Option String :=
  match homepage with
  | .exn => none
  | .resp _ _ =>
    match search with
    | .exn => none
    | .resp status body =>
      if status = 200 then some body
      else if status = 503 then retry_503_loop retries
      else some ""

/-- `TonkiangSearcher._parse_search_results` (`tonkiang_searcher.py` lines
281-302 guard portion): `None` content (network exception) and
whitespace-only content both yield no channels; otherwise the
BeautifulSoup extraction runs, abstracted here as the `soup` argument. -/
def parse_search_results (soup : String → String → List IPTVChannel)
    (content : Option String) (keyword : String) : List IPTVChannel :=
  match content with
  | none => []
  | some s => if pyStrip s = "" then [] else soup s keyword

/-- `ChannelGroup` dataclass (`modular_batch_processor.py` lines 28-32). -/
structure ChannelGroup where
  name : String
  channels : List String
deriving DecidableEq, Repr

/-- Python `startswith('#')` on an (already stripped) line. -/
def is_group_marker (line : String) : Bool :=
  match line.data with
  | '#' :: _ => true
  | _ => false

/-- The save-current-group step of `ChannelFileParser.parse_channel_file`
(`modular_batch_processor.py` lines 62-63 and 77-79): append the current
group only when one exists and its channel list is non-empty. -/
def flush_group (cur : Option ChannelGroup) (acc : List ChannelGroup) :
    List ChannelGroup :=
  match cur with
  | some g => if g.channels.isEmpty then acc else acc ++ [g]
  | none => acc

/-- The line loop of `ChannelFileParser.parse_channel_file`
(`modular_batch_processor.py` lines 49-88): strip each line, skip blanks;
a `#` line saves the current group (if it has channels) and opens a new
one named by the rest of the line (stripped); any other line is a channel
name, appended to the current group — creating the default group
"默认分组" when no marker has been seen yet.  At end of input the current
group is saved the same way. -/
def parse_lines_go (cur : Option ChannelGroup) (acc : List ChannelGroup) :
    List String → List ChannelGroup
  | [] => flush_group cur acc
  | raw :: rest =>
    let line := pyStrip raw
    if line = "" then parse_lines_go cur acc rest
    else if is_group_marker line then
      parse_lines_go (some ⟨pyStrip ⟨line.data.drop 1⟩, []⟩) (flush_group cur acc) rest
    else
      match cur with
      | some g => parse_lines_go (some ⟨g.name, g.channels ++ [line]⟩) acc rest
      | none => parse_lines_go (some ⟨"默认分组", [line]⟩) acc rest

/-- `ChannelFileParser.parse_channel_file` on the file's lines (the I/O
wrapper and its `FileNotFoundError` re-raise are outside the model). -/
def parse_channel_lines (lines : List String) : List ChannelGroup :=
  parse_lines_go none [] lines

/-- The stripped non-blank lines preceding the first group-marker line:
exactly the channel lines the parser collects into the implicit default
group. -/
def pre_marker_channels (lines : List String) : List String :=
  (((lines.map pyStrip).filter (fun l => l ≠ "")).takeWhile
    (fun l => !is_group_marker l))

/-- The tail of `netloc` after the last `@` (Python
`netloc.rpartition('@')[2]`; the whole string when there is no `@`). -/
def after_last_at (cs : List Char) : List Char :=
  ((cs.reverse.takeWhile (fun c => c ≠ '@'))).reverse

/-- Remainder of a URL after an optional `scheme:` prefix, per
`urllib.parse.urlsplit`: a scheme is a non-empty run before the first
colon whose first character is a letter and whose characters are
letters, digits, `+`, `-` or `.`. -/
def split_scheme (cs : List Char) : List Char :=
  let pre := cs.takeWhile (fun c => c ≠ ':')
  if pre.length < cs.length ∧ pre ≠ [] ∧
      (pre.headD 'a').isAlpha = true ∧
      pre.all (fun c => c.isAlphanum || c = '+' || c = '-' || c = '.') then
    cs.drop (pre.length + 1)
  else cs

/-- Modelled Python stdlib: `urllib.parse.urlparse(url).hostname` for URLs
without IPv6 bracket syntax — the netloc is present only after a `//`,
runs to the first `/`, `?` or `#`, loses any userinfo before the last `@`
and any `:port` suffix, and is lowercased; an empty host is `None`. -/
def py_hostname (url : String) : Option String :=
  let rest := split_scheme url.data
  if rest.take 2 = ['/', '/'] then
    let netloc := (rest.drop 2).takeWhile (fun c => c ≠ '/' ∧ c ≠ '?' ∧ c ≠ '#')
    let host := ((after_last_at netloc).takeWhile (fun c => c ≠ ':')).map Char.toLower
    if host = [] then none else some ⟨host⟩
  else none

/-- `DomainFrequencyProcessor.extract_domain_or_ip`
(`modular_batch_processor.py` lines 97-122): the URL's hostname when one
parses (the dotted-quad test at lines 113-117 returns the hostname in
both branches, so it does not affect the result), else the raw URL. -/
def extract_domain_or_ip (url : String) : String :=
  match py_hostname url with
  | some hostname => hostname
  | none => url

/-- Nested search results: group name → channel name → channel list,
insertion-ordered like the Python dicts. -/
abbrev GroupResults := List (String × List IPTVChannel)

/-- All results across groups. -/
abbrev AllResults := List (String × GroupResults)

/-- `DomainFrequencyProcessor.collect_domain_stats`
(`modular_batch_processor.py` lines 124-145): the `Counter` over the
extracted key of every channel of every bucket of every group, read
through `Counter.get(domain, 0)`. -/
def collect_domain_stats (all_results : AllResults) : String → Nat :=
  fun d =>
    ((all_results.map Prod.snd).flatten.map Prod.snd).flatten.countP
      (fun c => extract_domain_or_ip c.url = d)

/-- The sort key comparison of `sort_channels_by_domain_frequency`
(`modular_batch_processor.py` lines 160-166): Python tuple order on
`(-frequency, domain)` — higher frequency first, then lexicographically
smaller domain first. -/
def domain_freq_key_le (counter : String → Nat) (a b : IPTVChannel) : Bool :=
  let fa := counter (extract_domain_or_ip a.url)
  let fb := counter (extract_domain_or_ip b.url)
  if fa = fb then pyStrLe (extract_domain_or_ip a.url) (extract_domain_or_ip b.url)
  else decide (fb < fa)

/-- `DomainFrequencyProcessor.sort_channels_by_domain_frequency`
(`modular_batch_processor.py` lines 147-178).  Python's `sorted` is a
stable sort; a stable sort is extensionally determined by the key order,
so the stable `List.insertionSort` is an exact model. -/
def sort_channels_by_domain_frequency (counter : String → Nat)
    (channels : List IPTVChannel) : List IPTVChannel :=
  if channels.isEmpty then channels
  else List.insertionSort (fun a b => domain_freq_key_le counter a b = true) channels

/-- `ResultFormatter._get_first_valid_channel_url`
(`modular_batch_processor.py` lines 295-313): the URL of the first
channel of the first non-empty bucket in iteration order, or the
placeholder URL — never `None`. -/
def get_first_valid_channel_url (all_results : AllResults) : String :=
  match all_results.findSome?
      (fun g => g.2.findSome? (fun cc => cc.2.head?.map IPTVChannel.url)) with
  | some url => url
  | none => "http://placeholder.example/timestamp.m3u8"

/-- The per-channel output of `ResultFormatter.write_results_to_file`
(`modular_batch_processor.py` lines 237-253): a channel name missing from
the group's results, or mapped to an empty list, emits nothing; otherwise
its links are ranked by domain frequency and emitted as
`"<name>,<url>"` records. -/
def channel_lines (counter : String → Nat) (group_channels : GroupResults)
    (channel_name : String) : List String :=
  match group_channels.lookup channel_name with
  | none => []
  | some channels =>
    if channels.isEmpty then []
    else (sort_channels_by_domain_frequency counter channels).map
      (fun c => c.name ++ "," ++ c.url)

/-- The group-emission loop of `ResultFormatter.write_results_to_file`:
each entry (already restricted to groups present in the results) writes
its `"<group>,#genre#"` header unconditionally; the first emitted group
additionally writes the timestamp record (the first-URL value is never
`None`, so the timestamp condition at lines 230/261 always holds);
channel records follow per `channel_lines`. -/
def emit_groups (counter : String → Nat) (ts_line : String) :
    Bool → List (String × GroupResults × List String) → List String
  | _, [] => []
  | is_first_group, (group_name, group_channels, order) :: rest =>
    let header := group_name ++ ",#genre#"
    let body := (order.map (channel_lines counter group_channels)).flatten
    if is_first_group then
      header :: ts_line :: (body ++ emit_groups counter ts_line false rest)
    else
      header :: (body ++ emit_groups counter ts_line false rest)

/-- `ResultFormatter.write_results_to_file` (`modular_batch_processor.py`
lines 187-293) as the list of records written: with original groups the
groups are walked in input order, skipping those absent from the results
(line 221) BEFORE the header is written; without original groups the
results map's own order is used.  The timestamp record combines the
timestamp channel name with the first valid URL (or placeholder). -/
def write_results_lines (counter : String → Nat) (all_results : AllResults)
    (original_groups : List ChannelGroup) (timestamp_channel_name : String) :
    List String :=
  let ts_line := timestamp_channel_name ++ "," ++ get_first_valid_channel_url all_results
  if original_groups.isEmpty then
    emit_groups counter ts_line true
      (all_results.map (fun g => (g.1, g.2, g.2.map Prod.fst)))
  else
    emit_groups counter ts_line true
      (original_groups.filterMap (fun g =>
        (all_results.lookup g.name).map (fun gc => (g.name, gc, g.channels))))

/-- `ModularBatchProcessor.process_single_channel`
(`modular_batch_processor.py` lines 402-429): the searcher call with the
blanket `except` that records an empty list; a searcher is abstracted as
a function from the channel name to either a result list or a raised
exception message. -/
def process_single_channel (searcher : String → Except String (List IPTVChannel))
    (channel_name : String) : List IPTVChannel :=
  match searcher channel_name with
  | .ok channels => channels
  | .error _ => []

/-- `ModularBatchProcessor.process_group_concurrent`
(`modular_batch_processor.py` lines 431-485): serial mode (worker count 1)
walks the group's channels in order; concurrent mode collects the same
per-channel results in thread completion order `sched` (a permutation of
the group's channels).  In both modes the per-channel `try/except`
records an empty list instead of propagating, and the anti-bot inter-channel
sleeps are real-time behaviour outside the model. -/
def process_group_concurrent (max_workers_per_group : Nat)
    (searcher : String → Except String (List IPTVChannel))
    (group : ChannelGroup) (sched : List String) : GroupResults :=
  let order := if max_workers_per_group = 1 then group.channels else sched
  order.map (fun channel_name => (channel_name, process_single_channel searcher channel_name))

/-- Python `", ".join(...)`. -/
def py_join (sep : String) : List String → String
  | [] => ""
  | [x] => x
  | x :: rest => x ++ sep ++ py_join sep rest

/-- A string wrapped in the single-quote character, as Python `repr`
prints a string without special characters. -/
def py_quoted (s : String) : String :=
  String.singleton (Char.ofNat 39) ++ s ++ String.singleton (Char.ofNat 39)

/-- Python `repr` of a list of strings, as used by
`list(cls._searchers.keys())` inside an f-string. -/
def py_str_list_repr (names : List String) : String :=
  "[" ++ py_join ", " (names.map py_quoted) ++ "]"

/-- The error message of `SearcherFactory.create_searcher`
(`searcher_interface.py` line 358). -/
def searcher_not_found_msg (name : String) (registered : List String) : String :=
  "未找到搜索器: " ++ name ++ "，已注册的搜索器: " ++ py_str_list_repr registered

/-- `SearcherFactory.create_searcher` (`searcher_interface.py` lines
345-361): unknown names raise a `ValueError` listing the registered
names; a registered name constructs an instance from its class and the
given config.  The registry dict is an insertion-ordered association
list from name to constructor; `α` is the instance type. -/
def create_searcher {α : Type} (registry : List (String × (SearchConfig → α)))
    (name : String) (config : SearchConfig) : Except String α :=
  match registry.lookup name with
  | none => .error (searcher_not_found_msg name (registry.map Prod.fst))
  | some searcher_class => .ok (searcher_class config)

/-- A concrete parsed candidate, as `_parse_search_results` would build it
with the dataclass defaults for resolution, quality and source. -/
def demo_channel (i : Nat) : IPTVChannel :=
  ⟨"CCTV", "http://host.example/" ++ toString i, "未知", "标清", "未知"⟩

/-- Ten distinct candidates for one result page. -/
def channels10 : List IPTVChannel := (List.range 10).map demo_channel

/-- The default configuration with the validation worker count set to 2
(`ProcessorConfig.to_search_config` passes `max_workers_per_group` — 4 by
default, here 2 — as `concurrent_workers`). -/
def cfgWorkers2 : SearchConfig := { defaultSearchConfig with concurrent_workers := 2 }

/-- A searcher whose every page request succeeds, parses to five
candidates, and whose every probe validates. -/
def opsCacheDemo : SearcherOps :=
  { send := fun _ _ => .ok (some "<html>results</html>"),
    parse := fun _ _ => [demo_channel 0, demo_channel 1, demo_channel 2,
      demo_channel 3, demo_channel 4],
    validate := fun _ => .ok true,
    schedule := fun l => l }

/-- A link whose host is `a`. -/
def channelHostA : IPTVChannel := ⟨"CCTV", "http://a/x", "未知", "标清", "未知"⟩

/-- A link whose host is `b`. -/
def channelHostB : IPTVChannel := ⟨"CCTV", "http://b/y", "未知", "标清", "未知"⟩

/-- An aggregate result set in which host `a` occurs three times and host
`b` once. -/
def resultsHostDemo : AllResults :=
  [("央视", [("CCTV", [channelHostA, channelHostB]),
             ("CCTV2", [⟨"CCTV2", "http://a/z", "未知", "标清", "未知"⟩,
                        ⟨"CCTV2", "http://a/w", "未知", "标清", "未知"⟩])])]

/-- A registry holding one searcher class under the name `tonkiang`;
the instance type is `Nat` for concreteness. -/
def registryDemo : List (String × (SearchConfig → Nat)) :=
  [("tonkiang", fun config => config.max_results)]

/-- A searcher that raises on the channel name `BAD` and succeeds
elsewhere. -/
def searcherDemo : String → Except String (List IPTVChannel) :=
  fun channel_name =>
    if channel_name = "BAD" then .error "ConnectionError" else .ok [demo_channel 0]

/-- A group containing a failing and a succeeding channel name. -/
def groupDemo : ChannelGroup := ⟨"央视", ["CCTV1", "BAD"]⟩

/-- Claim C1, counterexample.  A channel built with resolution text
"1280x720" derives quality "高清" (high) — the code keys on the FIRST
number, 1280, not on the height 720 — refuting the claimed "标清"
(standard); and a channel built with the resolution default derives the
quality default "标清", not an "unknown" label. -/
theorem c1_counterexample :
    mkIPTVChannel "CCTV5" "http://u/x" "1280x720" defaultQuality defaultSource
      = .ok ⟨"CCTV5", "http://u/x", "1280x720", "高清", "未知"⟩
    ∧ "高清" ≠ "标清"
    ∧ mkIPTVChannel "CCTV5" "http://u/x" defaultResolution defaultQuality defaultSource
      = .ok ⟨"CCTV5", "http://u/x", "未知", "标清", "未知"⟩
    ∧ "标清" ≠ "unknown" := by decide

/-- Claim C1, amended.  For a channel with non-empty name and url the
constructor succeeds; when the resolution text is present (not empty, not
the "未知" default) and contains a number, the quality is derived from
the FIRST number n of the text (n ≥ 1080 → "高清", n ≥ 720 → "标清",
else "普清"); otherwise the quality keeps the value it was constructed
with (default "标清", never an "unknown" label).  In particular both
"1920x1080" and "1280x720" derive "高清". -/
theorem c1_quality_derivation (name url res qual src : String)
    (hn : name ≠ "") (hu : url ≠ "") :
    (∃ c, mkIPTVChannel name url res qual src = .ok c
      ∧ c.name = name ∧ c.url = url ∧ c.resolution = res ∧ c.source = src
      ∧ (∀ n, res ≠ "" → res ≠ "未知" → firstNumber res = some n →
          c.quality = if 1080 ≤ n then "高清" else if 720 ≤ n then "标清" else "普清")
      ∧ ((res = "" ∨ res = "未知" ∨ firstNumber res = none) → c.quality = qual))
    ∧ mkIPTVChannel name url "1920x1080" qual src
      = .ok ⟨name, url, "1920x1080", "高清", src⟩
    ∧ mkIPTVChannel name url "1280x720" qual src
      = .ok ⟨name, url, "1280x720", "高清", src⟩ := by
  have h1920 : firstNumber "1920x1080" = some 1920 := by decide
  have h1280 : firstNumber "1280x720" = some 1280 := by decide
  refine ⟨?_, ?_, ?_⟩
  · by_cases h1 : res = ""
    · refine ⟨⟨name, url, res, qual, src⟩, ?_, rfl, rfl, rfl, rfl, ?_, ?_⟩
      · simp [mkIPTVChannel, post_init, hn, hu, h1]
      · intro n hres _ _; exact absurd h1 hres
      · intro _; rfl
    · by_cases h2 : res = "未知"
      · refine ⟨⟨name, url, res, qual, src⟩, ?_, rfl, rfl, rfl, rfl, ?_, ?_⟩
        · simp [mkIPTVChannel, post_init, hn, hu, h1, h2]
        · intro n _ hres _; exact absurd h2 hres
        · intro _; rfl
      · cases hf : firstNumber res with
        | none =>
          refine ⟨⟨name, url, res, qual, src⟩, ?_, rfl, rfl, rfl, rfl, ?_, ?_⟩
          · simp [mkIPTVChannel, post_init, hn, hu, h1, h2, hf]
          · intro n _ _ hsome; exact Option.noConfusion hsome
          · intro _; rfl
        | some m =>
          refine ⟨⟨name, url, res,
            if 1080 ≤ m then "高清" else if 720 ≤ m then "标清" else "普清", src⟩,
            ?_, rfl, rfl, rfl, rfl, ?_, ?_⟩
          · simp [mkIPTVChannel, post_init, hn, hu, h1, h2, hf]
          · intro n _ _ hsome
            injection hsome with h; subst h; rfl
          · intro hor
            rcases hor with h | h | h
            · exact absurd h h1
            · exact absurd h h2
            · exact Option.noConfusion h
  · simp [mkIPTVChannel, post_init, hn, hu, h1920]
  · simp [mkIPTVChannel, post_init, hn, hu, h1280]

/-- Claim C1, witness: the amended theorem applied at a concrete channel
with resolution "640x480" (below 720, so quality "普清"). -/
theorem c1_quality_derivation_witness :
    ∃ c, mkIPTVChannel "凤凰卫视" "http://h/1" "640x480" "标清" "未知" = .ok c
      ∧ c.quality = if (1080 : Nat) ≤ 640 then "高清"
          else if (720 : Nat) ≤ 640 then "标清" else "普清" := by
  obtain ⟨⟨c, hok, -, -, -, -, hq, -⟩, -, -⟩ :=
    c1_quality_derivation "凤凰卫视" "http://h/1" "640x480" "标清" "未知"
      (by decide) (by decide)
  exact ⟨c, hok, hq 640 (by decide) (by decide) (by decide)⟩

/-- Claim C2, violation witness.  With the default configuration
(caching enabled: the fresh cache is the empty dict) a search that
produces a non-empty final list leaves the cache unchanged: the store at
`searcher_interface.py` line 308 is guarded by `if self._search_cache:`,
which is falsy for an empty dict, so no result is ever written and every
later call re-runs the paging loop. -/
theorem c2_cache_never_stores :
    defaultSearchConfig.enable_cache = true
    ∧ init_cache defaultSearchConfig = some []
    ∧ (search_channels defaultSearchConfig opsCacheDemo
        (init_cache defaultSearchConfig) "CCTV").1 ≠ []
    ∧ (search_channels defaultSearchConfig opsCacheDemo
        (init_cache defaultSearchConfig) "CCTV").2 = some []
    ∧ (([] : SearchCache).lookup "CCTV").isSome = false := by decide

/-- With the collection loop started below target, at most `target` valid
channels are accumulated: the loop breaks as soon as the count reaches the
target. -/
theorem collect_valid_length_le (validate : IPTVChannel → Except Unit Bool)
    (target : Nat) :
    ∀ (l : List IPTVChannel) (acc : List IPTVChannel),
      acc.length < target → (collect_valid validate target acc l).length ≤ target := by
  intro l
  induction l with
  | nil => intro acc hacc; simpa [collect_valid] using Nat.le_of_lt hacc
  | cons c rest ih =>
    intro acc hacc
    simp only [collect_valid]
    cases validate c with
    | error e => exact ih acc hacc
    | ok b =>
      cases b with
      | false => exact ih acc hacc
      | true =>
        by_cases hlen : target ≤ (acc ++ [c]).length
        · rw [if_pos hlen]
          simpa using hacc
        · rw [if_neg hlen]
          exact ih (acc ++ [c])
            (by simp only [List.length_append, List.length_singleton] at hlen ⊢; omega)

/-- Claim C3, counterexample.  Ten candidates, a worker ceiling of 2 and a
target of 3: the claimed bound is `target + (workers − 1) = 4` probe
calls, but every submitted probe runs (`executor.shutdown(wait=True)`),
so `_validate_link` is called 10 times. -/
theorem c3_counterexample :
    max_workers cfgWorkers2 channels10.length = 2
    ∧ (validate_links_concurrent cfgWorkers2 (fun _ => .ok true)
        channels10 channels10 (some 3)).2 = 10
    ∧ ¬((validate_links_concurrent cfgWorkers2 (fun _ => .ok true)
        channels10 channels10 (some 3)).2
          ≤ 3 + (max_workers cfgWorkers2 channels10.length - 1)) := by decide

/-- Claim C3, amended.  With validation enabled and a non-empty candidate
batch, the engine stops collecting as soon as the accumulated valid count
reaches the target — later completions are discarded, so at most `target`
channels are returned — but it does not stop the probes themselves: every
submitted probe still runs, so the number of `_validate_link` calls
equals the number of candidates (not `target + workers − 1`). -/
theorem c3_early_exit (cfg : SearchConfig) (validate : IPTVChannel → Except Unit Bool)
    (channels order : List IPTVChannel) (target : Nat)
    (hval : cfg.enable_validation = true) (hne : channels ≠ [])
    (htarget : 1 ≤ target) :
    (validate_links_concurrent cfg validate channels order (some target)).2
      = channels.length
    ∧ (validate_links_concurrent cfg validate channels order (some target)).1.length
      ≤ target := by
  have hemp : channels.isEmpty = false := by
    cases channels with
    | nil => exact absurd rfl hne
    | cons a l => rfl
  constructor
  · simp [validate_links_concurrent, hval, hemp]
  · simp only [validate_links_concurrent, hval, hemp]
    simpa using collect_valid_length_le validate target order [] (by simpa using htarget)

/-- Claim C3, witness for the amended theorem: ten all-valid candidates,
target 3 — ten probe calls, three returned channels. -/
theorem c3_early_exit_witness :
    (validate_links_concurrent cfgWorkers2 (fun _ => .ok true)
        channels10 channels10 (some 3)).2 = channels10.length
    ∧ (validate_links_concurrent cfgWorkers2 (fun _ => .ok true)
        channels10 channels10 (some 3)).1.length ≤ 3 :=
  c3_early_exit cfgWorkers2 (fun _ => .ok true) channels10 channels10 3
    (by decide) (by decide) (by decide)

/-- Deduplication yields a sublist of its input, hence preserves the
relative order of the kept channels. -/
theorem dedup_go_sublist : ∀ (l : List IPTVChannel) (seen : List String),
    (dedup_go seen l).Sublist l := by
  intro l
  induction l with
  | nil => intro seen; simp [dedup_go]
  | cons c rest ih =>
    intro seen
    simp only [dedup_go]
    by_cases h : seen.contains c.url
    · rw [if_pos h]; exact (ih seen).cons c
    · rw [if_neg h]; exact (ih (c.url :: seen)).cons₂ c

/-- Every URL in the deduplicated output was outside the seen-set. -/
theorem dedup_go_url_not_seen : ∀ (l : List IPTVChannel) (seen : List String)
    (c : IPTVChannel), c ∈ dedup_go seen l → c.url ∉ seen := by
  intro l
  induction l with
  | nil => intro seen c h; simp [dedup_go] at h
  | cons d rest ih =>
    intro seen c h
    simp only [dedup_go] at h
    by_cases hd : seen.contains d.url
    · rw [if_pos hd] at h; exact ih seen c h
    · rw [if_neg hd] at h
      rcases List.mem_cons.mp h with rfl | h2
      · intro habs
        exact hd (List.elem_eq_true_of_mem habs)
      · intro habs
        exact ih (d.url :: seen) c h2 (List.mem_cons_of_mem _ habs)

/-- The URLs of the deduplicated output are pairwise distinct. -/
theorem dedup_go_nodup : ∀ (l : List IPTVChannel) (seen : List String),
    ((dedup_go seen l).map IPTVChannel.url).Nodup := by
  intro l
  induction l with
  | nil => intro seen; simp [dedup_go]
  | cons d rest ih =>
    intro seen
    simp only [dedup_go]
    by_cases hd : seen.contains d.url
    · rw [if_pos hd]; exact ih seen
    · rw [if_neg hd]
      simp only [List.map_cons, List.nodup_cons]
      refine ⟨?_, ih (d.url :: seen)⟩
      intro habs
      rcases List.mem_map.mp habs with ⟨c, hc, hurl⟩
      exact dedup_go_url_not_seen rest (d.url :: seen) c hc (hurl ▸ List.mem_cons_self _ _)

/-- Deduplication keeps, for every URL, exactly the first channel of the
input carrying it (searching among URLs outside the seen-set). -/
theorem dedup_go_find? : ∀ (l : List IPTVChannel) (seen : List String)
    (u : String), u ∉ seen →
    (dedup_go seen l).find? (fun c => c.url == u) = l.find? (fun c => c.url == u) := by
  intro l
  induction l with
  | nil => intro seen u _; simp [dedup_go]
  | cons d rest ih =>
    intro seen u hu
    simp only [dedup_go]
    by_cases hd : seen.contains d.url
    · rw [if_pos hd]
      have hne : (d.url == u) = false := by
        rw [beq_eq_false_iff_ne]
        intro h
        exact hu (h ▸ List.mem_of_elem_eq_true hd)
      rw [List.find?_cons_of_neg _ (by simp [hne])]
      exact ih seen u hu
    · rw [if_neg hd]
      by_cases hud : d.url = u
      · rw [List.find?_cons_of_pos _ (by simp [hud]), List.find?_cons_of_pos _ (by simp [hud])]
      · rw [List.find?_cons_of_neg _ (by simp [hud]), List.find?_cons_of_neg _ (by simp [hud])]
        exact ih (d.url :: seen) u (by
          intro habs
          rcases List.mem_cons.mp habs with h | h
          · exact hud h.symm
          · exact hu h)

/-- The fresh-searcher call of `search_channels` never takes the
cache-hit branch: a fresh cache is `None` or the empty dict. -/
theorem search_channels_init_fst (cfg : SearchConfig) (ops : SearcherOps)
    (keyword : String) :
    (search_channels cfg ops (init_cache cfg) keyword).1
      = (dedup_by_url (search_pages cfg ops keyword cfg.max_pages 1 [])).take
          cfg.max_results := by
  by_cases h : cfg.enable_cache
  · simp [search_channels, init_cache, h]
  · simp [search_channels, init_cache, h]

/-- Claim C4.  For every configuration, searcher and keyword, the list a
fresh searcher returns from `search_channels` is the URL-deduplication of
the accumulated page results truncated to `max_results`; its URLs are
pairwise distinct; its length is at most `max_results`; deduplication
preserves first-seen order (the deduplicated list is a sublist of the
accumulated list) and keeps the first occurrence of each URL (`find?` by
any URL agrees before and after deduplication). -/
theorem c4_dedup_order_cap (cfg : SearchConfig) (ops : SearcherOps) (keyword : String) :
    (search_channels cfg ops (init_cache cfg) keyword).1
      = (dedup_by_url (search_pages cfg ops keyword cfg.max_pages 1 [])).take
          cfg.max_results
    ∧ ((search_channels cfg ops (init_cache cfg) keyword).1.map IPTVChannel.url).Nodup
    ∧ (search_channels cfg ops (init_cache cfg) keyword).1.length ≤ cfg.max_results
    ∧ (dedup_by_url (search_pages cfg ops keyword cfg.max_pages 1 [])).Sublist
        (search_pages cfg ops keyword cfg.max_pages 1 [])
    ∧ ∀ u, (dedup_by_url (search_pages cfg ops keyword cfg.max_pages 1 [])).find?
        (fun c => c.url == u)
      = (search_pages cfg ops keyword cfg.max_pages 1 []).find? (fun c => c.url == u) := by
  have hfst := search_channels_init_fst cfg ops keyword
  refine ⟨hfst, ?_, ?_, dedup_go_sublist _ [], ?_⟩
  · rw [hfst, List.map_take]
    exact (dedup_go_nodup _ []).sublist (List.take_sublist _ _)
  · rw [hfst]
    simp [List.length_take_le]
  · intro u
    exact dedup_go_find? _ [] u (by simp)

/-- Claim C5, counterexample.  A transport failure — an HTTP 404 on the
search POST — makes `_send_search_request` return the empty string, the
very value an empty-bodied valid 200 response returns, so the caller
cannot tell them apart; and `_parse_search_results` maps the empty string
and `None` alike to zero channels, even with markup extraction that would
find a channel. -/
theorem c5_counterexample :
    send_search_request (.resp 200 "<html>home</html>") (.resp 404 "not found") []
      = send_search_request (.resp 200 "<html>home</html>") (.resp 200 "") []
    ∧ send_search_request (.resp 200 "<html>home</html>") (.resp 404 "not found") []
      = some ""
    ∧ parse_search_results (fun _ _ => [demo_channel 0]) (some "") "CCTV" = []
    ∧ parse_search_results (fun _ _ => [demo_channel 0]) none "CCTV" = [] := by decide

/-- Claim C5, amended.  `_send_search_request` returns `None` for a raised
transport exception and for a 503 whose retries are exhausted, but any
other non-200 HTTP status returns the empty string — the same value as an
empty-bodied 200 — and `_parse_search_results` maps `None` and blank
content alike to zero channels, so the paging loop of `search_channels`
ends through its "page had no results" branch on every transport failure,
conflating it with "no matches" rather than signaling it distinctly. -/
theorem c5_transport_conflated (homepage : HttpAttempt) (status : Nat)
    (body : String) (retries : List HttpAttempt)
    (h200 : status ≠ 200) (h503 : status ≠ 503) (hhp : homepage ≠ .exn) :
    send_search_request homepage (.resp status body) retries = some ""
    ∧ send_search_request homepage .exn retries = none
    ∧ retry_503_loop [] = none
    ∧ ∀ (soup : String → String → List IPTVChannel) (keyword : String),
        parse_search_results soup (some "") keyword = []
        ∧ parse_search_results soup none keyword = [] := by
  cases homepage with
  | exn => exact absurd rfl hhp
  | resp hs hb =>
    refine ⟨?_, rfl, rfl, ?_⟩
    · simp [send_search_request, h200, h503]
    · intro soup keyword
      constructor
      · simp [parse_search_results, pyStrip]
      · rfl

/-- Claim C5, witness for the amended theorem: a 500 status on the search
POST yields the empty string. -/
theorem c5_transport_conflated_witness :
    send_search_request (.resp 200 "<html>home</html>") (.resp 500 "err") []
      = some "" :=
  (c5_transport_conflated (.resp 200 "<html>home</html>") 500 "err" []
    (by decide) (by decide) (by decide)).1

/-- Every entry handed to the emission loop gets its group header written,
whatever the first-group flag is. -/
theorem emit_groups_header_mem (counter : String → Nat) (ts_line : String) :
    ∀ (entries : List (String × GroupResults × List String)) (b : Bool)
      (group_name : String) (group_channels : GroupResults) (order : List String),
      (group_name, group_channels, order) ∈ entries →
      (group_name ++ ",#genre#") ∈ emit_groups counter ts_line b entries := by
  intro entries
  induction entries with
  | nil => intro b gn gc ord h; simp at h
  | cons e rest ih =>
    intro b gn gc ord h
    rcases List.mem_cons.mp h with rfl | h2
    · cases b <;> simp [emit_groups]
    · obtain ⟨e1, e2, e3⟩ := e
      have hrec := ih false gn gc ord h2
      cases b <;> simp [emit_groups] <;> right <;>
        first
          | exact Or.inr hrec
          | exact Or.inr (Or.inr hrec)

/-- Claim C6, counterexample.  A group present in the results whose only
channel has zero valid links still gets its `#genre#` header record (and,
being the first emitted group, the timestamp record): the header is
written at `modular_batch_processor.py` line 227 before any channel list
is inspected. -/
theorem c6_counterexample :
    write_results_lines (fun _ => 0) [("央视", [("CCTV1", [])])]
        [⟨"央视", ["CCTV1"]⟩] "更新时间(2026-10-12 08:00)"
      = ["央视,#genre#",
         "更新时间(2026-10-12 08:00),http://placeholder.example/timestamp.m3u8"]
    ∧ "央视,#genre#" ∈ write_results_lines (fun _ => 0) [("央视", [("CCTV1", [])])]
        [⟨"央视", ["CCTV1"]⟩] "更新时间(2026-10-12 08:00)" := by decide

/-- Claim C6, amended.  A channel whose validated link list is empty (or
which is absent from the group's results) emits no record at all; but a
group present in the results map always emits its header record, even
when every one of its channels has zero valid links. -/
theorem c6_empty_channels_omitted :
    (∀ (counter : String → Nat) (group_channels : GroupResults) (name : String),
      group_channels.lookup name = some ([] : List IPTVChannel) →
      channel_lines counter group_channels name = [])
    ∧ (∀ (counter : String → Nat) (group_channels : GroupResults) (name : String),
      group_channels.lookup name = none →
      channel_lines counter group_channels name = [])
    ∧ (∀ (counter : String → Nat) (all_results : AllResults)
        (groups : List ChannelGroup) (ts : String) (g : ChannelGroup)
        (gc : GroupResults), g ∈ groups → all_results.lookup g.name = some gc →
      (g.name ++ ",#genre#") ∈ write_results_lines counter all_results groups ts) := by
  refine ⟨?_, ?_, ?_⟩
  · intro counter gc name h
    simp [channel_lines, h]
  · intro counter gc name h
    simp [channel_lines, h]
  · intro counter results groups ts g gc hg hlk
    have hne : groups.isEmpty = false := by
      cases groups with
      | nil => simp at hg
      | cons a l => rfl
    have hentry : (g.name, gc, g.channels) ∈ groups.filterMap (fun g2 =>
        (results.lookup g2.name).map (fun gc2 => (g2.name, gc2, g2.channels))) := by
      refine List.mem_filterMap.mpr ⟨g, hg, ?_⟩
      rw [hlk]; rfl
    simpa [write_results_lines, hne] using
      emit_groups_header_mem counter
        (ts ++ "," ++ get_first_valid_channel_url results) _ true
        g.name gc g.channels hentry

/-- Claim C6, witness: an empty-list channel emits nothing while its
group's header is still present. -/
theorem c6_empty_channels_omitted_witness :
    channel_lines (fun _ => 0) [("CCTV1", [])] "CCTV1" = []
    ∧ "央视,#genre#" ∈ write_results_lines (fun _ => 0) [("央视", [("CCTV1", [])])]
        [⟨"央视", ["CCTV1"]⟩] "更新时间" :=
  ⟨c6_empty_channels_omitted.1 (fun _ => 0) [("CCTV1", [])] "CCTV1" (by decide),
   c6_empty_channels_omitted.2.2 (fun _ => 0) [("央视", [("CCTV1", [])])]
     [⟨"央视", ["CCTV1"]⟩] "更新时间" ⟨"央视", ["CCTV1"]⟩ [("CCTV1", [])]
     (by decide) (by decide)⟩

/-- Transitivity of the code-point comparison. -/
theorem charListLe_trans : ∀ (a b c : List Char),
    charListLe a b = true → charListLe b c = true → charListLe a c = true := by
  intro a
  induction a with
  | nil => intro b c _ _; rfl
  | cons x xs ih =>
    intro b c hab hbc
    cases b with
    | nil => simp [charListLe] at hab
    | cons y ys =>
      cases c with
      | nil => simp [charListLe] at hbc
      | cons z zs =>
        simp only [charListLe] at hab hbc ⊢
        by_cases hxy : x = y
        · subst hxy
          rw [if_pos rfl] at hab
          by_cases hxz : x = z
          · subst hxz
            rw [if_pos rfl] at hbc ⊢
            exact ih ys zs hab hbc
          · rw [if_neg hxz] at hbc ⊢
            exact hbc
        · rw [if_neg hxy] at hab
          have hlt1 : x < y := of_decide_eq_true hab
          by_cases hyz : y = z
          · subst hyz
            rw [if_neg hxy]
            exact decide_eq_true hlt1
          · rw [if_neg hyz] at hbc
            have hlt2 : y < z := of_decide_eq_true hbc
            have hlt : x < z := lt_trans hlt1 hlt2
            rw [if_neg (ne_of_lt hlt)]
            exact decide_eq_true hlt

/-- Totality of the code-point comparison. -/
theorem charListLe_total : ∀ (a b : List Char),
    charListLe a b = true ∨ charListLe b a = true := by
  intro a
  induction a with
  | nil => intro b; left; rfl
  | cons x xs ih =>
    intro b
    cases b with
    | nil => right; rfl
    | cons y ys =>
      simp only [charListLe]
      by_cases hxy : x = y
      · subst hxy
        rw [if_pos rfl, if_pos rfl]
        exact ih ys
      · rw [if_neg hxy, if_neg (Ne.symm hxy)]
        rcases lt_trichotomy x y with h | h | h
        · left; exact decide_eq_true h
        · exact absurd h hxy
        · right; exact decide_eq_true h

/-- Transitivity of the `(−frequency, domain)` tuple comparison. -/
theorem domain_freq_key_le_trans (counter : String → Nat)
    (a b c : IPTVChannel)
    (hab : domain_freq_key_le counter a b = true)
    (hbc : domain_freq_key_le counter b c = true) :
    domain_freq_key_le counter a c = true := by
  simp only [domain_freq_key_le] at hab hbc ⊢
  by_cases h1 : counter (extract_domain_or_ip a.url) = counter (extract_domain_or_ip b.url)
  · rw [if_pos h1] at hab
    by_cases h2 : counter (extract_domain_or_ip b.url) = counter (extract_domain_or_ip c.url)
    · rw [if_pos h2] at hbc
      rw [if_pos (h1.trans h2)]
      exact charListLe_trans _ _ _ hab hbc
    · rw [if_neg h2] at hbc
      have hlt : counter (extract_domain_or_ip c.url)
          < counter (extract_domain_or_ip b.url) := of_decide_eq_true hbc
      rw [if_neg (by omega)]
      exact decide_eq_true (by omega)
  · rw [if_neg h1] at hab
    have hlt1 : counter (extract_domain_or_ip b.url)
        < counter (extract_domain_or_ip a.url) := of_decide_eq_true hab
    by_cases h2 : counter (extract_domain_or_ip b.url) = counter (extract_domain_or_ip c.url)
    · rw [if_neg (by omega)]
      exact decide_eq_true (by omega)
    · rw [if_neg h2] at hbc
      have hlt2 : counter (extract_domain_or_ip c.url)
          < counter (extract_domain_or_ip b.url) := of_decide_eq_true hbc
      rw [if_neg (by omega)]
      exact decide_eq_true (by omega)

/-- Totality of the `(−frequency, domain)` tuple comparison. -/
theorem domain_freq_key_le_total (counter : String → Nat) (a b : IPTVChannel) :
    domain_freq_key_le counter a b = true ∨ domain_freq_key_le counter b a = true := by
  simp only [domain_freq_key_le]
  by_cases h : counter (extract_domain_or_ip a.url) = counter (extract_domain_or_ip b.url)
  · rw [if_pos h, if_pos h.symm]
    exact charListLe_total _ _
  · rcases Nat.lt_or_ge (counter (extract_domain_or_ip a.url))
      (counter (extract_domain_or_ip b.url)) with hlt | hge
    · right
      rw [if_neg (Ne.symm h)]
      exact decide_eq_true hlt
    · left
      rw [if_neg h]
      exact decide_eq_true (by omega)

/-- Claim C7.  Ranking a single channel-name bucket is a permutation of
its links, pairwise ordered by `(−frequency, host)` — descending host
frequency with lexicographic host tie-break; and on the concrete
frequency table {a: 3, b: 1} the link with host `a` sorts before the link
with host `b` from either starting order, so the result is independent of
the original list order. -/
theorem c7_ranking_deterministic :
    (∀ (counter : String → Nat) (channels : List IPTVChannel),
      (sort_channels_by_domain_frequency counter channels).Perm channels
      ∧ (sort_channels_by_domain_frequency counter channels).Pairwise
          (fun a b => domain_freq_key_le counter a b = true))
    ∧ collect_domain_stats resultsHostDemo "a" = 3
    ∧ collect_domain_stats resultsHostDemo "b" = 1
    ∧ sort_channels_by_domain_frequency (collect_domain_stats resultsHostDemo)
        [channelHostA, channelHostB] = [channelHostA, channelHostB]
    ∧ sort_channels_by_domain_frequency (collect_domain_stats resultsHostDemo)
        [channelHostB, channelHostA] = [channelHostA, channelHostB] := by
  refine ⟨?_, by decide, by decide, by decide, by decide⟩
  intro counter channels
  haveI : IsTrans IPTVChannel (fun a b => domain_freq_key_le counter a b = true) :=
    ⟨fun a b c => domain_freq_key_le_trans counter a b c⟩
  haveI : IsTotal IPTVChannel (fun a b => domain_freq_key_le counter a b = true) :=
    ⟨fun a b => domain_freq_key_le_total counter a b⟩
  by_cases h : channels.isEmpty
  · constructor
    · simp [sort_channels_by_domain_frequency, h]
    · have : channels = [] := List.isEmpty_iff.mp h
      subst this
      simp [sort_channels_by_domain_frequency]
  · constructor
    · simpa [sort_channels_by_domain_frequency, h] using
        List.perm_insertionSort (fun a b => domain_freq_key_le counter a b = true) channels
    · simpa [sort_channels_by_domain_frequency, h] using
        List.sorted_insertionSort (fun a b => domain_freq_key_le counter a b = true) channels

/-- Looking a name up in the per-channel result pairing gives the
processing result of that name. -/
theorem lookup_map_pair (f : String → List IPTVChannel) :
    ∀ (l : List String) (name : String), name ∈ l →
      (l.map (fun n => (n, f n))).lookup name = some (f name) := by
  intro l
  induction l with
  | nil => intro name h; simp at h
  | cons x rest ih =>
    intro name h
    by_cases hx : name = x
    · subst hx
      simp [List.lookup]
    · rcases List.mem_cons.mp h with h1 | h2
      · exact absurd h1 hx
      · have hbeq : (name == x) = false := by simpa using hx
        simp only [List.map_cons, List.lookup, hbeq]
        exact ih name h2

/-- Claim C8.  In either processing mode (serial when the per-group worker
count is 1, else concurrent with completion order `sched`), every channel
name of the group is recorded in the group's result map with exactly the
value `process_single_channel` computes — a total function — and a
channel whose searcher raises is recorded as the empty list; no exception
leaves the group processing. -/
theorem c8_exception_recorded_empty
    (searcher : String → Except String (List IPTVChannel))
    (group : ChannelGroup) (sched : List String) (workers : Nat)
    (hsched : sched.Perm group.channels) (name : String)
    (hmem : name ∈ group.channels) :
    (process_group_concurrent workers searcher group sched).lookup name
      = some (process_single_channel searcher name)
    ∧ ∀ e, searcher name = .error e →
      (process_group_concurrent workers searcher group sched).lookup name
        = some [] := by
  have hmem2 : name ∈ (if workers = 1 then group.channels else sched) := by
    by_cases hw : workers = 1
    · rw [if_pos hw]; exact hmem
    · rw [if_neg hw]; exact hsched.mem_iff.mpr hmem
  have hlk : (process_group_concurrent workers searcher group sched).lookup name
      = some (process_single_channel searcher name) := by
    simp only [process_group_concurrent]
    exact lookup_map_pair (process_single_channel searcher) _ name hmem2
  refine ⟨hlk, ?_⟩
  intro e herr
  rw [hlk]
  simp [process_single_channel, herr]

/-- Claim C8, witness: in the demo group, the channel whose searcher
raises is recorded as the empty list, in serial and concurrent mode. -/
theorem c8_exception_recorded_empty_witness :
    (process_group_concurrent 1 searcherDemo groupDemo ["BAD", "CCTV1"]).lookup "BAD"
      = some []
    ∧ (process_group_concurrent 4 searcherDemo groupDemo ["BAD", "CCTV1"]).lookup "BAD"
      = some [] :=
  ⟨(c8_exception_recorded_empty searcherDemo groupDemo ["BAD", "CCTV1"] 1
      (by decide) "BAD" (by decide)).2 "ConnectionError" (by decide),
   (c8_exception_recorded_empty searcherDemo groupDemo ["BAD", "CCTV1"] 4
      (by decide) "BAD" (by decide)).2 "ConnectionError" (by decide)⟩

/-- String concatenation concatenates the underlying character lists. -/
theorem string_data_append (a b : String) : (a ++ b).data = a.data ++ b.data := rfl

/-- Every joined element appears inside the joined string. -/
theorem mem_infix_py_join (sep : String) :
    ∀ (l : List String) (x : String), x ∈ l →
      x.data <:+: (py_join sep l).data := by
  intro l
  induction l with
  | nil => intro x h; simp at h
  | cons a rest ih =>
    intro x h
    cases rest with
    | nil =>
      rcases List.mem_cons.mp h with rfl | h2
      · simp [py_join]
      · simp at h2
    | cons b t =>
      rcases List.mem_cons.mp h with rfl | h2
      · refine ⟨[], (sep ++ py_join sep (b :: t)).data, ?_⟩
        simp [py_join, string_data_append]
      · have hrec := ih x h2
        have hsuf : (py_join sep (b :: t)).data
            <:+: (py_join sep (a :: b :: t)).data := by
          refine ⟨(a ++ sep).data, [], ?_⟩
          simp [py_join, string_data_append]
        exact hrec.trans hsuf

/-- Every registered name appears (single-quoted) inside the
"searcher not found" message. -/
theorem mem_infix_not_found_msg (name : String) (registered : List String)
    (k : String) (hk : k ∈ registered) :
    k.data <:+: (searcher_not_found_msg name registered).data := by
  have h1 : k.data <:+: (py_quoted k).data := by
    refine ⟨(String.singleton (Char.ofNat 39)).data,
      (String.singleton (Char.ofNat 39)).data, ?_⟩
    simp [py_quoted, string_data_append]
  have h2 : (py_quoted k).data <:+: (py_join ", " (registered.map py_quoted)).data :=
    mem_infix_py_join ", " _ _ (List.mem_map_of_mem py_quoted hk)
  have h3 : (py_join ", " (registered.map py_quoted)).data
      <:+: (searcher_not_found_msg name registered).data := by
    refine ⟨("未找到搜索器: " ++ name ++ "，已注册的搜索器: " ++ "[").data,
      ("]" : String).data, ?_⟩
    simp [searcher_not_found_msg, py_str_list_repr, string_data_append]
  exact (h1.trans h2).trans h3

/-- Claim C9.  `create_searcher` fails on an unregistered name with the
"searcher not found" error whose message embeds every currently
registered name, and on a registered name returns the instance built by
applying the registered class to the given config. -/
theorem c9_create_searcher {α : Type} (registry : List (String × (SearchConfig → α)))
    (name : String) (config : SearchConfig) :
    (registry.lookup name = none →
      create_searcher registry name config
        = .error (searcher_not_found_msg name (registry.map Prod.fst))
      ∧ ∀ k ∈ registry.map Prod.fst,
          k.data <:+: (searcher_not_found_msg name (registry.map Prod.fst)).data)
    ∧ ∀ searcher_class, registry.lookup name = some searcher_class →
      create_searcher registry name config = .ok (searcher_class config) := by
  constructor
  · intro hnone
    refine ⟨by simp [create_searcher, hnone], ?_⟩
    intro k hk
    exact mem_infix_not_found_msg name _ k hk
  · intro cls hsome
    simp [create_searcher, hsome]

/-- Claim C9, witness: the demo registry rejects the unknown name `iptv`
with a message embedding the registered name `tonkiang`, and constructs
from the registered name. -/
theorem c9_create_searcher_witness :
    create_searcher registryDemo "iptv" defaultSearchConfig
      = .error (searcher_not_found_msg "iptv" ["tonkiang"])
    ∧ ("tonkiang" : String).data
      <:+: (searcher_not_found_msg "iptv" ["tonkiang"]).data
    ∧ create_searcher registryDemo "tonkiang" defaultSearchConfig = .ok 10 :=
  ⟨((c9_create_searcher registryDemo "iptv" defaultSearchConfig).1 rfl).1,
   ((c9_create_searcher registryDemo "iptv" defaultSearchConfig).1 rfl).2
     "tonkiang" (by decide),
   (c9_create_searcher registryDemo "tonkiang" defaultSearchConfig).2
     (fun config => config.max_results) rfl⟩

/-- Saving the current group preserves the all-groups-non-empty invariant. -/
theorem flush_group_nonempty (cur : Option ChannelGroup) (acc : List ChannelGroup)
    (h : ∀ g ∈ acc, g.channels ≠ []) :
    ∀ g ∈ flush_group cur acc, g.channels ≠ [] := by
  cases cur with
  | none => simpa [flush_group] using h
  | some g0 =>
    simp only [flush_group]
    by_cases he : g0.channels.isEmpty
    · rw [if_pos he]; exact h
    · rw [if_neg he]
      intro g hg
      rcases List.mem_append.mp hg with h1 | h2
      · exact h g h1
      · have : g = g0 := by simpa using h2
        subst this
        simpa [List.isEmpty_iff] using he

/-- Saving the current group only appends to the already-saved groups. -/
theorem flush_group_append (cur : Option ChannelGroup) (acc : List ChannelGroup) :
    flush_group cur acc = acc ++ flush_group cur [] := by
  cases cur with
  | none => simp [flush_group]
  | some g0 =>
    simp only [flush_group]
    by_cases he : g0.channels.isEmpty
    · rw [if_pos he, if_pos he]; simp
    · rw [if_neg he, if_neg he]; simp

/-- Every group the parser emits has a non-empty channel list, provided
the already-saved groups do. -/
theorem parse_go_nonempty : ∀ (lines : List String) (cur : Option ChannelGroup)
    (acc : List ChannelGroup), (∀ g ∈ acc, g.channels ≠ []) →
    ∀ g ∈ parse_lines_go cur acc lines, g.channels ≠ [] := by
  intro lines
  induction lines with
  | nil =>
    intro cur acc h
    exact flush_group_nonempty cur acc h
  | cons raw rest ih =>
    intro cur acc h
    simp only [parse_lines_go]
    by_cases hb : pyStrip raw = ""
    · rw [if_pos hb]; exact ih cur acc h
    · rw [if_neg hb]
      by_cases hm : is_group_marker (pyStrip raw)
      · rw [if_pos hm]
        exact ih _ _ (flush_group_nonempty cur acc h)
      · rw [if_neg hm]
        cases cur with
        | some g => exact ih _ acc h
        | none => exact ih _ acc h

/-- The parser only ever appends to the already-saved groups. -/
theorem parse_go_append : ∀ (lines : List String) (cur : Option ChannelGroup)
    (acc : List ChannelGroup),
    parse_lines_go cur acc lines = acc ++ parse_lines_go cur [] lines := by
  intro lines
  induction lines with
  | nil => intro cur acc; exact flush_group_append cur acc
  | cons raw rest ih =>
    intro cur acc
    simp only [parse_lines_go]
    by_cases hb : pyStrip raw = ""
    · rw [if_pos hb, if_pos hb]; exact ih cur acc
    · rw [if_neg hb, if_neg hb]
      by_cases hm : is_group_marker (pyStrip raw)
      · rw [if_pos hm, if_pos hm]
        rw [ih _ (flush_group cur acc), ih _ (flush_group cur [])]
        rw [flush_group_append cur acc]
        simp [List.append_assoc]
      · rw [if_neg hm, if_neg hm]
        cases cur with
        | some g => exact ih _ acc
        | none => exact ih _ acc

/-- A blank line contributes nothing to the pre-marker channel lines. -/
theorem pre_marker_cons_blank (raw : String) (rest : List String)
    (h : pyStrip raw = "") :
    pre_marker_channels (raw :: rest) = pre_marker_channels rest := by
  simp [pre_marker_channels, List.filter_cons, h]

/-- A marker line ends the pre-marker channel lines. -/
theorem pre_marker_cons_marker (raw : String) (rest : List String)
    (h1 : pyStrip raw ≠ "") (h2 : is_group_marker (pyStrip raw) = true) :
    pre_marker_channels (raw :: rest) = [] := by
  simp [pre_marker_channels, List.filter_cons, h1, List.takeWhile_cons, h2]

/-- A channel line joins the pre-marker channel lines. -/
theorem pre_marker_cons_channel (raw : String) (rest : List String)
    (h1 : pyStrip raw ≠ "") (h2 : is_group_marker (pyStrip raw) = false) :
    pre_marker_channels (raw :: rest) = pyStrip raw :: pre_marker_channels rest := by
  simp [pre_marker_channels, List.filter_cons, h1, List.takeWhile_cons, h2]

/-- Running the parser with a current group holding some channels already:
the first emitted group is that group extended by exactly the pre-marker
channel lines of the remaining input. -/
theorem parse_go_head : ∀ (lines : List String) (name : String)
    (chs : List String), chs ≠ [] →
    ∃ rest, parse_lines_go (some ⟨name, chs⟩) [] lines
      = ⟨name, chs ++ pre_marker_channels lines⟩ :: rest := by
  intro lines
  induction lines with
  | nil =>
    intro name chs hch
    refine ⟨[], ?_⟩
    have he : chs.isEmpty = false := by simpa [List.isEmpty_iff] using hch
    simp [parse_lines_go, flush_group, he, pre_marker_channels]
  | cons raw rest ih =>
    intro name chs hch
    simp only [parse_lines_go]
    by_cases hb : pyStrip raw = ""
    · rw [if_pos hb, pre_marker_cons_blank raw rest hb]
      exact ih name chs hch
    · rw [if_neg hb]
      by_cases hm : is_group_marker (pyStrip raw)
      · rw [if_pos hm, pre_marker_cons_marker raw rest hb hm]
        have he : chs.isEmpty = false := by simpa [List.isEmpty_iff] using hch
        rw [parse_go_append rest _ (flush_group (some ⟨name, chs⟩) [])]
        refine ⟨parse_lines_go (some ⟨pyStrip ⟨(pyStrip raw).data.drop 1⟩, []⟩) [] rest, ?_⟩
        simp [flush_group, he]
      · rw [if_neg hm]
        obtain ⟨r, hr⟩ := ih name (chs ++ [pyStrip raw]) (by simp)
        refine ⟨r, ?_⟩
        rw [hr, pre_marker_cons_channel raw rest hb (by simpa using hm)]
        simp [List.append_assoc]

/-- Claim C10.  Every group `parse_channel_file` returns has a non-empty
channel list (a marker line followed by no channel lines produces no
group), and when channel lines precede the first marker line the first
returned group is the implicitly created "默认分组" holding exactly those
(stripped, non-blank) lines. -/
theorem c10_parse_channel_file :
    (∀ (lines : List String), ∀ g ∈ parse_channel_lines lines, g.channels ≠ [])
    ∧ (∀ (lines : List String), pre_marker_channels lines ≠ [] →
        ∃ rest, parse_channel_lines lines
          = ⟨"默认分组", pre_marker_channels lines⟩ :: rest) := by
  constructor
  · intro lines
    exact parse_go_nonempty lines none [] (by simp)
  · intro lines
    induction lines with
    | nil => intro h; simp [pre_marker_channels] at h
    | cons raw rest ih =>
      intro h
      by_cases hb : pyStrip raw = ""
      · rw [pre_marker_cons_blank raw rest hb] at h ⊢
        obtain ⟨r, hr⟩ := ih h
        refine ⟨r, ?_⟩
        simpa [parse_channel_lines, parse_lines_go, hb] using hr
      · by_cases hm : is_group_marker (pyStrip raw)
        · rw [pre_marker_cons_marker raw rest hb hm] at h
          exact absurd rfl h
        · rw [pre_marker_cons_channel raw rest hb (by simpa using hm)]
          obtain ⟨r, hr⟩ := parse_go_head rest "默认分组" [pyStrip raw] (by simp)
          refine ⟨r, ?_⟩
          simp only [parse_channel_lines, parse_lines_go, if_neg hb, if_neg hm]
          simpa using hr

/-- Claim C10, witness: channel lines before the first marker land in the
default group; the "空组" marker followed immediately by another marker
emits no group. -/
theorem c10_parse_channel_file_witness :
    (∀ g ∈ parse_channel_lines ["CCTV1", " #空组", "#组一", "CCTV2"], g.channels ≠ [])
    ∧ (pre_marker_channels ["CCTV1", " #空组", "#组一", "CCTV2"] ≠ []
       ∧ ∃ rest, parse_channel_lines ["CCTV1", " #空组", "#组一", "CCTV2"]
          = ⟨"默认分组", pre_marker_channels ["CCTV1", " #空组", "#组一", "CCTV2"]⟩ :: rest) :=
  ⟨c10_parse_channel_file.1 ["CCTV1", " #空组", "#组一", "CCTV2"],
   by decide,
   c10_parse_channel_file.2 ["CCTV1", " #空组", "#组一", "CCTV2"] (by decide)⟩
